import Mathlib

/-!
Verification of the sharded fungible-token ledger shard
(`ft-storage/src/lib.rs`) and of the dispatcher's reply handling
(`ft-logic/src/messages.rs`).

Modelling decisions:
* `ActorId` and `H256` are opaque identifiers, modelled as `Nat`.
* `u128` amounts are `Nat`; `saturating_add` is explicit via `satAdd`,
  capped at `U128_MAX`.  Subtractions in the source only happen under a
  sufficiency check, so `Nat` subtraction is exact there.
* `BTreeMap` is modelled as an association list with `lookupA`
  (first match), `insertA` (replace in place or append) and `removeA`
  (delete the key).
* A Rust `panic!` / failed `assert!` / `.expect(..)` aborts message
  processing without committing state and without a reply; a handler is
  therefore a function into `Option (state × reply)`, `none` being the
  abort.
-/

abbrev ActorId := Nat

abbrev H256 := Nat

/-- Largest value representable in an unsigned 128-bit integer. -/
def U128_MAX : Nat := 2 ^ 128 - 1

/-- `u128::saturating_add`. -/
def satAdd (a b : Nat) : Nat := min (a + b) U128_MAX

/-- Map lookup on an association list (`BTreeMap::get`). -/
def lookupA {β : Type} (k : Nat) : List (Nat × β) → Option β
  | [] => none
  | (k₁, v) :: rest => if k = k₁ then some v else lookupA k rest

/-- Map insertion on an association list (`BTreeMap::insert` /
`entry(..).and_modify(..).or_insert(..)`): replace the value if the key
is present, append the pair otherwise. -/
def insertA {β : Type} (k : Nat) (v : β) : List (Nat × β) → List (Nat × β)
  | [] => [(k, v)]
  | (k₁, v₁) :: rest => if k = k₁ then (k, v) :: rest else (k₁, v₁) :: insertA k v rest

/-- Map deletion on an association list (`BTreeMap::remove`). -/
def removeA {β : Type} (k : Nat) : List (Nat × β) → List (Nat × β)
  | [] => []
  | (k₁, v₁) :: rest => if k₁ = k then removeA k rest else (k₁, v₁) :: removeA k rest

/-- The ledger shard state, from `struct FTStorage` in
`ft-storage/src/lib.rs`. -/
structure FTStorage where
  ft_logic_id : ActorId
  transaction_status : List (H256 × Bool)
  balances : List (ActorId × Nat)
  approvals : List (ActorId × List (ActorId × Nat))
deriving Repr, DecidableEq

/-- Replies of the storage shard (`FTStorageEvent` of `ft-storage-io`,
reconstructed from its uses in `ft-storage/src/lib.rs` and
`ft-logic/src/messages.rs`). -/
inductive FTStorageEvent where
  | Ok
  | Err
  | Balance (amount : Nat)
deriving Repr, DecidableEq

/-- Requests accepted by the storage shard (`FTStorageAction` of
`ft-storage-io`, reconstructed from `handle` in `ft-storage/src/lib.rs`). -/
inductive FTStorageAction where
  | GetBalance (account : ActorId)
  | IncreaseBalance (transaction_hash : H256) (account : ActorId) (amount : Nat)
  | DecreaseBalance (transaction_hash : H256) (msg_source : ActorId)
      (account : ActorId) (amount : Nat)
  | Approve (transaction_hash : H256) (msg_source : ActorId)
      (account : ActorId) (amount : Nat)
  | Clear (transaction_hash : H256)
deriving Repr, DecidableEq

/-- The balance read used by `FTStorage::get_balance`:
`self.balances.get(account).unwrap_or(&0)`. -/
def FTStorage.get_balance (s : FTStorage) (account : ActorId) : Nat :=
  (lookupA account s.balances).getD 0

/-- The allowance read path used by `FTStorage::decrease_balance`:
`self.approvals.get(account).and_then(|m| m.get(msg_source))`, defaulting
to zero when absent. -/
def FTStorage.allowance (s : FTStorage) (owner spender : ActorId) : Nat :=
  ((lookupA owner s.approvals).bind fun m => lookupA spender m).getD 0

/-- `FTStorage::increase_balance`.  `caller` is `msg::source()`; the
`assert_ft_contract` panic is the `none` outcome. -/
def FTStorage.increase_balance (s : FTStorage) (caller : ActorId)
    (transaction_hash : H256) (account : ActorId) (amount : Nat) :
    Option (FTStorage × FTStorageEvent) :=
  if caller = s.ft_logic_id then
    match lookupA transaction_hash s.transaction_status with
    | some true => some (s, .Ok)
    | some false => some (s, .Err)
    | none =>
      let balances :=
        match lookupA account s.balances with
        | some balance => insertA account (satAdd balance amount) s.balances
        | none => insertA account amount s.balances
      some ({ s with
                balances := balances
                transaction_status :=
                  insertA transaction_hash true s.transaction_status },
            .Ok)
  else none

/-- The shared fall-through of `FTStorage::decrease_balance` (lines 90-91
of `ft-storage/src/lib.rs`): record the transaction as failed and reply
`Err`. -/
def FTStorage.decrease_failed (s : FTStorage) (transaction_hash : H256) :
    FTStorage × FTStorageEvent :=
  ({ s with transaction_status :=
      insertA transaction_hash false s.transaction_status },
   .Err)

/-- `FTStorage::decrease_balance`. -/
def FTStorage.decrease_balance (s : FTStorage) (caller : ActorId)
    (transaction_hash : H256) (msg_source : ActorId) (account : ActorId)
    (amount : Nat) : Option (FTStorage × FTStorageEvent) :=
  if caller = s.ft_logic_id then
    match lookupA transaction_hash s.transaction_status with
    | some true => some (s, .Ok)
    | some false => some (s, .Err)
    | none =>
      match lookupA account s.balances with
      | none => some (s.decrease_failed transaction_hash)
      | some balance =>
        if amount ≤ balance then
          if msg_source = account then
            some ({ s with
                      balances := insertA account (balance - amount) s.balances
                      transaction_status :=
                        insertA transaction_hash true s.transaction_status },
                  .Ok)
          else
            match lookupA account s.approvals with
            | none => some (s.decrease_failed transaction_hash)
            | some accounts =>
              match lookupA msg_source accounts with
              | none => some (s.decrease_failed transaction_hash)
              | some allowed_amount =>
                if amount ≤ allowed_amount then
                  some ({ s with
                            balances :=
                              insertA account (balance - amount) s.balances
                            approvals :=
                              insertA account
                                (insertA msg_source (allowed_amount - amount)
                                  accounts) s.approvals
                            transaction_status :=
                              insertA transaction_hash true
                                s.transaction_status },
                        .Ok)
                else some (s.decrease_failed transaction_hash)
        else some (s.decrease_failed transaction_hash)
  else none

/-- `FTStorage::approve`.  `msg_source` is the owner granting the
allowance, `account` the spender (names as in the source). -/
def FTStorage.approve (s : FTStorage) (caller : ActorId)
    (transaction_hash : H256) (msg_source : ActorId) (account : ActorId)
    (amount : Nat) : Option (FTStorage × FTStorageEvent) :=
  if caller = s.ft_logic_id then
    match lookupA transaction_hash s.transaction_status with
    | some true => some (s, .Ok)
    | some false => some (s, .Err)
    | none =>
      let approvals :=
        match lookupA msg_source s.approvals with
        | some accounts =>
          let accounts :=
            match lookupA account accounts with
            | some allowed_amount =>
              insertA account (satAdd allowed_amount amount) accounts
            | none => insertA account amount accounts
          insertA msg_source accounts s.approvals
        | none => insertA msg_source [(account, amount)] s.approvals
      some ({ s with approvals := approvals }, .Ok)
  else none

/-- `FTStorage::clear`. -/
def FTStorage.clear (s : FTStorage) (transaction_hash : H256) : FTStorage :=
  { s with transaction_status := removeA transaction_hash s.transaction_status }

/-- The `handle` entry point of the storage shard.  The second component
of the result is the reply (`none` for `Clear`, which replies nothing);
an overall `none` is an aborted (panicking) execution. -/
def handle (s : FTStorage) (caller : ActorId) (action : FTStorageAction) :
    Option (FTStorage × Option FTStorageEvent) :=
  match action with
  | .GetBalance account => some (s, some (.Balance (s.get_balance account)))
  | .IncreaseBalance transaction_hash account amount =>
    (s.increase_balance caller transaction_hash account amount).map
      fun p => (p.1, some p.2)
  | .DecreaseBalance transaction_hash msg_source account amount =>
    (s.decrease_balance caller transaction_hash msg_source account amount).map
      fun p => (p.1, some p.2)
  | .Approve transaction_hash msg_source account amount =>
    (s.approve caller transaction_hash msg_source account amount).map
      fun p => (p.1, some p.2)
  | .Clear transaction_hash => some (s.clear transaction_hash, none)

/-- Outcome of the dispatcher's suspend-on-reply exchange with the shard
(`msg::send_for_reply_as(..).await` in `ft-logic/src/messages.rs`):
either a decoded reply or a failed/undecodable exchange. -/
inductive ExchangeResult where
  | Ok (event : FTStorageEvent)
  | Error
deriving Repr, DecidableEq

/-- The reply handling of `get_balance` in `ft-logic/src/messages.rs`:
`.expect(..)` on the exchange result (a panic, modelled `none`), then
`if let FTStorageEvent::Balance(balance) = reply { balance } else { 0 }`. -/
def Messages.get_balance (result : ExchangeResult) : Option Nat :=
  match result with
  | .Error => none
  | .Ok reply =>
    match reply with
    | .Balance balance => some balance
    | _ => some 0

example :
    FTStorage.increase_balance ⟨0, [], [], []⟩ 0 1 3 100
      = some (⟨0, [(1, true)], [(3, 100)], []⟩, .Ok) := by decide

example :
    FTStorage.decrease_balance ⟨0, [(1, true)], [(3, 100)], []⟩ 0 2 3 3 150
      = some (⟨0, [(1, true), (2, false)], [(3, 100)], []⟩, .Err) := by decide

example :
    FTStorage.decrease_balance ⟨0, [], [(3, 100)], [(3, [(5, 50)])]⟩ 0 4 5 3 30
      = some (⟨0, [(4, true)], [(3, 70)], [(3, [(5, 20)])]⟩, .Ok) := by decide

example :
    FTStorage.approve ⟨0, [], [], []⟩ 0 1 3 5 50
      = some (⟨0, [], [], [(3, [(5, 50)])]⟩, .Ok) := by decide

theorem lookupA_insertA_self {β : Type} (k : Nat) (v : β) (l : List (Nat × β)) :
    lookupA k (insertA k v l) = some v := by
  induction l with
  | nil => simp [insertA, lookupA]
  | cons p rest ih =>
    obtain ⟨k₁, v₁⟩ := p
    by_cases h : k = k₁
    · simp [insertA, h, lookupA]
    · simp [insertA, h, lookupA, ih]

theorem lookupA_removeA_self {β : Type} (k : Nat) (l : List (Nat × β)) :
    lookupA k (removeA k l) = none := by
  induction l with
  | nil => rfl
  | cons p rest ih =>
    obtain ⟨k₁, v₁⟩ := p
    by_cases h : k₁ = k
    · simp [removeA, h, ih]
    · have h₂ : ¬ k = k₁ := fun hh => h hh.symm
      simp [removeA, h, lookupA, h₂, ih]

/-- A completed `increase_balance` call was authorized, keeps the bound
caller, and ends with the transaction recorded with the boolean matching
its reply. -/
theorem increase_balance_records (s s₁ : FTStorage) (caller : ActorId)
    (tx : H256) (account : ActorId) (amount : Nat) (r : FTStorageEvent)
    (h : s.increase_balance caller tx account amount = some (s₁, r)) :
    caller = s₁.ft_logic_id ∧
    ∃ b, lookupA tx s₁.transaction_status = some b ∧
      r = (if b then .Ok else .Err) := by
  unfold FTStorage.increase_balance at h
  split at h
  case isFalse => exact absurd h (by simp)
  case isTrue hc =>
    split at h
    next hst =>
      obtain ⟨rfl, rfl⟩ : s = s₁ ∧ FTStorageEvent.Ok = r := by simpa using h
      exact ⟨hc, true, hst, rfl⟩
    next hst =>
      obtain ⟨rfl, rfl⟩ : s = s₁ ∧ FTStorageEvent.Err = r := by simpa using h
      exact ⟨hc, false, hst, rfl⟩
    next hst =>
      obtain ⟨rfl, rfl⟩ := by simpa using h
      exact ⟨hc, true, lookupA_insertA_self tx true s.transaction_status, rfl⟩

/-- A completed `decrease_balance` call was authorized, keeps the bound
caller, and ends with the transaction recorded with the boolean matching
its reply. -/
theorem decrease_balance_records (s s₁ : FTStorage) (caller : ActorId)
    (tx : H256) (msg_source account : ActorId) (amount : Nat)
    (r : FTStorageEvent)
    (h : s.decrease_balance caller tx msg_source account amount = some (s₁, r)) :
    caller = s₁.ft_logic_id ∧
    ∃ b, lookupA tx s₁.transaction_status = some b ∧
      r = (if b then .Ok else .Err) := by
  unfold FTStorage.decrease_balance at h
  split at h
  case isFalse => simp at h
  case isTrue hc =>
    split at h
    next hst =>
      obtain ⟨rfl, rfl⟩ : s = s₁ ∧ FTStorageEvent.Ok = r := by simpa using h
      exact ⟨hc, true, hst, rfl⟩
    next hst =>
      obtain ⟨rfl, rfl⟩ : s = s₁ ∧ FTStorageEvent.Err = r := by simpa using h
      exact ⟨hc, false, hst, rfl⟩
    next hst =>
      split at h
      next hb =>
        obtain ⟨rfl, rfl⟩ := by simpa [FTStorage.decrease_failed] using h
        exact ⟨hc, false, lookupA_insertA_self tx false s.transaction_status, rfl⟩
      next balance hb =>
        split at h
        case isTrue hle =>
          split at h
          case isTrue hself =>
            obtain ⟨rfl, rfl⟩ := by simpa using h
            exact ⟨hc, true, lookupA_insertA_self tx true s.transaction_status, rfl⟩
          case isFalse hself =>
            split at h
            next hap =>
              obtain ⟨rfl, rfl⟩ := by simpa [FTStorage.decrease_failed] using h
              exact ⟨hc, false, lookupA_insertA_self tx false s.transaction_status, rfl⟩
            next accounts hap =>
              split at h
              next hal =>
                obtain ⟨rfl, rfl⟩ := by simpa [FTStorage.decrease_failed] using h
                exact ⟨hc, false, lookupA_insertA_self tx false s.transaction_status, rfl⟩
              next allowed hal =>
                split at h
                case isTrue hale =>
                  obtain ⟨rfl, rfl⟩ := by simpa using h
                  exact ⟨hc, true, lookupA_insertA_self tx true s.transaction_status, rfl⟩
                case isFalse hale =>
                  obtain ⟨rfl, rfl⟩ := by simpa [FTStorage.decrease_failed] using h
                  exact ⟨hc, false, lookupA_insertA_self tx false s.transaction_status, rfl⟩
        case isFalse hle =>
          obtain ⟨rfl, rfl⟩ := by simpa [FTStorage.decrease_failed] using h
          exact ⟨hc, false, lookupA_insertA_self tx false s.transaction_status, rfl⟩

/-- Replay: when the transaction is already recorded, each of the three
mutating operations replies the recorded outcome and leaves the state
untouched. -/
theorem replay_recorded (s : FTStorage) (caller : ActorId) (tx : H256)
    (msg_source account : ActorId) (amount : Nat) (b : Bool)
    (hc : caller = s.ft_logic_id)
    (hst : lookupA tx s.transaction_status = some b) :
    s.increase_balance caller tx account amount
      = some (s, if b then .Ok else .Err) ∧
    s.decrease_balance caller tx msg_source account amount
      = some (s, if b then .Ok else .Err) ∧
    s.approve caller tx msg_source account amount
      = some (s, if b then .Ok else .Err) := by
  cases b <;>
    simp [FTStorage.increase_balance, FTStorage.decrease_balance,
      FTStorage.approve, hc, hst]

theorem satAdd_le (a b : Nat) : satAdd a b ≤ U128_MAX := Nat.min_le_right _ _

theorem satAdd_of_le (a b : Nat) (h : a + b ≤ U128_MAX) : satAdd a b = a + b :=
  Nat.min_eq_left h

/-- C1 (amended): issuing the same IncreaseBalance or DecreaseBalance
request twice with the same transaction identifier leaves the ledger
state after the second call identical to the state after the first call,
and both calls produce the same reply.  (The original claim also covered
Approve, which `C1_counterexample` refutes.) -/
theorem C1_idempotent_increase_decrease (s s₁ s₂ : FTStorage)
    (r₁ r₂ : FTStorageEvent) (caller : ActorId) (tx : H256)
    (msg_source account : ActorId) (amount : Nat)
    (hinc : s.increase_balance caller tx account amount = some (s₁, r₁))
    (hdec : s.decrease_balance caller tx msg_source account amount
      = some (s₂, r₂)) :
    s₁.increase_balance caller tx account amount = some (s₁, r₁) ∧
    s₂.decrease_balance caller tx msg_source account amount = some (s₂, r₂) := by
  obtain ⟨hc₁, b₁, hst₁, rfl⟩ :=
    increase_balance_records s s₁ caller tx account amount r₁ hinc
  obtain ⟨hc₂, b₂, hst₂, rfl⟩ :=
    decrease_balance_records s s₂ caller tx msg_source account amount r₂ hdec
  exact ⟨(replay_recorded s₁ caller tx msg_source account amount b₁ hc₁ hst₁).1,
    (replay_recorded s₂ caller tx msg_source account amount b₂ hc₂ hst₂).2.1⟩

theorem C1_idempotent_witness :
    FTStorage.increase_balance ⟨0, [(1, true)], [(3, 5)], []⟩ 0 1 3 5
      = some (⟨0, [(1, true)], [(3, 5)], []⟩, .Ok) ∧
    FTStorage.decrease_balance ⟨0, [(1, false)], [], []⟩ 0 1 2 3 5
      = some (⟨0, [(1, false)], [], []⟩, .Err) :=
  C1_idempotent_increase_decrease ⟨0, [], [], []⟩ _ _ _ _ 0 1 2 3 5
    (by decide) (by decide)

/-- C1 as stated is false for Approve: a duplicated Approve request with
the same fresh transaction identifier mutates the ledger again, raising
the allowance from 1 to 2, so the state after the second call differs
from the state after the first. -/
theorem C1_counterexample :
    FTStorage.approve ⟨0, [], [], []⟩ 0 1 2 3 1
      = some (⟨0, [], [], [(2, [(3, 1)])]⟩, .Ok) ∧
    FTStorage.approve ⟨0, [], [], [(2, [(3, 1)])]⟩ 0 1 2 3 1
      = some (⟨0, [], [], [(2, [(3, 2)])]⟩, .Ok) ∧
    (⟨0, [], [], [(2, [(3, 2)])]⟩ : FTStorage) ≠ ⟨0, [], [], [(2, [(3, 1)])]⟩ := by
  decide

/-- C3: once a transaction identifier is recorded as failed, a repeated
DecreaseBalance with that identifier replies `Err` with the state left
unchanged, under no hypothesis on balances or allowances — so it cannot
succeed later even when funds have become sufficient. -/
theorem C3_failed_replay (s : FTStorage) (tx : H256)
    (msg_source account : ActorId) (amount : Nat)
    (hrec : lookupA tx s.transaction_status = some false) :
    s.decrease_balance s.ft_logic_id tx msg_source account amount
      = some (s, .Err) := by
  simpa using
    (replay_recorded s s.ft_logic_id tx msg_source account amount false rfl
      hrec).2.1

theorem C3_failed_replay_witness :
    FTStorage.decrease_balance ⟨0, [(7, false)], [(3, 100)], []⟩ 0 7 3 3 5
      = some (⟨0, [(7, false)], [(3, 100)], []⟩, .Err) :=
  C3_failed_replay ⟨0, [(7, false)], [(3, 100)], []⟩ 7 3 3 5 (by decide)

/-- C4 is refuted: on a failed or undecodable exchange the dispatcher's
get_balance panics (`.expect`), modelled as `none`; it does not return
the default value zero. -/
theorem C4_counterexample :
    Messages.get_balance ExchangeResult.Error = none ∧
    Messages.get_balance ExchangeResult.Error ≠ some 0 := by decide

/-- C4 (amended): the dispatcher's get_balance returns the amount of a
decoded `Balance` reply, returns the default zero for a decoded reply of
an unexpected variant, and aborts (panics) on a failed or undecodable
exchange. -/
theorem C4_lossy_fallback (b : Nat) :
    Messages.get_balance (ExchangeResult.Ok (FTStorageEvent.Balance b))
      = some b ∧
    Messages.get_balance (ExchangeResult.Ok FTStorageEvent.Ok) = some 0 ∧
    Messages.get_balance (ExchangeResult.Ok FTStorageEvent.Err) = some 0 ∧
    Messages.get_balance ExchangeResult.Error = none :=
  ⟨rfl, rfl, rfl, rfl⟩

/-- C7: a mutating request whose message source differs from the bound
ft_logic_id aborts: no state is committed and no reply is produced. -/
theorem C7_unauthorized_aborts (s : FTStorage) (caller : ActorId) (tx : H256)
    (msg_source account : ActorId) (amount : Nat)
    (hne : caller ≠ s.ft_logic_id) :
    handle s caller (.IncreaseBalance tx account amount) = none ∧
    handle s caller (.DecreaseBalance tx msg_source account amount) = none ∧
    handle s caller (.Approve tx msg_source account amount) = none := by
  simp [handle, FTStorage.increase_balance, FTStorage.decrease_balance,
    FTStorage.approve, hne]

theorem C7_unauthorized_witness :
    handle ⟨0, [], [], []⟩ 1 (.IncreaseBalance 1 3 4) = none ∧
    handle ⟨0, [], [], []⟩ 1 (.DecreaseBalance 1 2 3 4) = none ∧
    handle ⟨0, [], [], []⟩ 1 (.Approve 1 2 3 4) = none :=
  C7_unauthorized_aborts ⟨0, [], [], []⟩ 1 1 2 3 4 (by decide)

/-- C8: GetBalance is a pure read: for any caller (no authorization
check) it replies the stored balance, absent entries reading as zero, and
returns the state unchanged. -/
theorem C8_get_balance_pure (s : FTStorage) (caller account : ActorId) :
    handle s caller (.GetBalance account)
      = some (s, some (.Balance ((lookupA account s.balances).getD 0))) := rfl

/-- C10: Clear removes the transaction identifier from the record map
unconditionally and performs no authorization check: for any caller the
record is deleted (the identifier afterwards looks fresh) and no reply is
produced. -/
theorem C10_clear_unconditional (s : FTStorage) (caller : ActorId) (tx : H256) :
    handle s caller (.Clear tx) = some (s.clear tx, none) ∧
    lookupA tx (s.clear tx).transaction_status = none :=
  ⟨rfl, lookupA_removeA_self tx s.transaction_status⟩

/-- C6: IncreaseBalance with a fresh transaction identifier never aborts:
it saturating-adds the amount to the account's balance (capped at
`U128_MAX`, exact when the sum does not overflow), records the outcome as
success and replies `Ok`. -/
theorem C6_increase_saturating (s : FTStorage) (tx : H256)
    (account : ActorId) (amount : Nat)
    (hfresh : lookupA tx s.transaction_status = none)
    (hamt : amount ≤ U128_MAX) :
    ∃ s₁, s.increase_balance s.ft_logic_id tx account amount = some (s₁, .Ok) ∧
      s₁.get_balance account = satAdd (s.get_balance account) amount ∧
      s₁.get_balance account ≤ U128_MAX ∧
      (s.get_balance account + amount ≤ U128_MAX →
        s₁.get_balance account = s.get_balance account + amount) ∧
      lookupA tx s₁.transaction_status = some true := by
  rcases hb : lookupA account s.balances with _ | balance
  · refine ⟨{ s with
        balances := insertA account amount s.balances
        transaction_status := insertA tx true s.transaction_status },
      ?_, ?_, ?_, ?_, ?_⟩
    · simp [FTStorage.increase_balance, hfresh, hb]
    · show (lookupA account (insertA account amount s.balances)).getD 0
        = satAdd ((lookupA account s.balances).getD 0) amount
      rw [lookupA_insertA_self, hb]
      show amount = satAdd 0 amount
      rw [satAdd_of_le 0 amount (by simpa using hamt), Nat.zero_add]
    · show (lookupA account (insertA account amount s.balances)).getD 0 ≤ U128_MAX
      rw [lookupA_insertA_self]
      exact hamt
    · intro _
      show (lookupA account (insertA account amount s.balances)).getD 0
        = (lookupA account s.balances).getD 0 + amount
      rw [lookupA_insertA_self, hb]
      simp
    · exact lookupA_insertA_self tx true s.transaction_status
  · refine ⟨{ s with
        balances := insertA account (satAdd balance amount) s.balances
        transaction_status := insertA tx true s.transaction_status },
      ?_, ?_, ?_, ?_, ?_⟩
    · simp [FTStorage.increase_balance, hfresh, hb]
    · show (lookupA account (insertA account (satAdd balance amount)
          s.balances)).getD 0
        = satAdd ((lookupA account s.balances).getD 0) amount
      rw [lookupA_insertA_self, hb]
      rfl
    · show (lookupA account (insertA account (satAdd balance amount)
          s.balances)).getD 0 ≤ U128_MAX
      rw [lookupA_insertA_self]
      exact satAdd_le balance amount
    · intro hle
      show (lookupA account (insertA account (satAdd balance amount)
          s.balances)).getD 0
        = (lookupA account s.balances).getD 0 + amount
      rw [lookupA_insertA_self, hb]
      exact satAdd_of_le balance amount (by simpa [FTStorage.get_balance, hb] using hle)
    · exact lookupA_insertA_self tx true s.transaction_status

theorem C6_increase_witness :
    ∃ s₁, FTStorage.increase_balance ⟨0, [], [(3, 10)], []⟩ 0 1 3 7
        = some (s₁, .Ok) ∧
      s₁.get_balance 3 = satAdd (FTStorage.get_balance ⟨0, [], [(3, 10)], []⟩ 3) 7 ∧
      s₁.get_balance 3 ≤ U128_MAX ∧
      (FTStorage.get_balance ⟨0, [], [(3, 10)], []⟩ 3 + 7 ≤ U128_MAX →
        s₁.get_balance 3 = FTStorage.get_balance ⟨0, [], [(3, 10)], []⟩ 3 + 7) ∧
      lookupA 1 s₁.transaction_status = some true :=
  C6_increase_saturating ⟨0, [], [(3, 10)], []⟩ 1 3 7 (by decide) (by decide)

/-- One fresh Approve call: it succeeds, leaves the transaction-record
map (and balances) untouched, and saturating-adds the amount to the
`(msg_source, account)` allowance. -/
theorem approve_fresh_step (s : FTStorage) (tx : H256)
    (msg_source account : ActorId) (amount : Nat)
    (hfresh : lookupA tx s.transaction_status = none)
    (hamt : amount ≤ U128_MAX) :
    ∃ s₁, s.approve s.ft_logic_id tx msg_source account amount
        = some (s₁, .Ok) ∧
      s₁.ft_logic_id = s.ft_logic_id ∧
      s₁.transaction_status = s.transaction_status ∧
      s₁.balances = s.balances ∧
      s₁.allowance msg_source account
        = satAdd (s.allowance msg_source account) amount := by
  rcases hap : lookupA msg_source s.approvals with _ | accounts
  · refine ⟨{ s with
        approvals := insertA msg_source [(account, amount)] s.approvals },
      ?_, rfl, rfl, rfl, ?_⟩
    · simp [FTStorage.approve, hfresh, hap]
    · show ((lookupA msg_source (insertA msg_source [(account, amount)]
          s.approvals)).bind fun m => lookupA account m).getD 0
        = satAdd (((lookupA msg_source s.approvals).bind
            fun m => lookupA account m).getD 0) amount
      rw [lookupA_insertA_self, hap]
      show (lookupA account [(account, amount)]).getD 0 = satAdd 0 amount
      rw [satAdd_of_le 0 amount (by simpa using hamt), Nat.zero_add]
      simp [lookupA]
  · rcases hal : lookupA account accounts with _ | allowed
    · refine ⟨{ s with
          approvals := insertA msg_source (insertA account amount accounts)
            s.approvals },
        ?_, rfl, rfl, rfl, ?_⟩
      · simp [FTStorage.approve, hfresh, hap, hal]
      · show ((lookupA msg_source (insertA msg_source
            (insertA account amount accounts) s.approvals)).bind
              fun m => lookupA account m).getD 0
          = satAdd (((lookupA msg_source s.approvals).bind
              fun m => lookupA account m).getD 0) amount
        rw [lookupA_insertA_self, hap]
        show (lookupA account (insertA account amount accounts)).getD 0
          = satAdd ((lookupA account accounts).getD 0) amount
        rw [lookupA_insertA_self, hal]
        show amount = satAdd 0 amount
        rw [satAdd_of_le 0 amount (by simpa using hamt), Nat.zero_add]
    · refine ⟨{ s with
          approvals := insertA msg_source
            (insertA account (satAdd allowed amount) accounts) s.approvals },
        ?_, rfl, rfl, rfl, ?_⟩
      · simp [FTStorage.approve, hfresh, hap, hal]
      · show ((lookupA msg_source (insertA msg_source
            (insertA account (satAdd allowed amount) accounts)
              s.approvals)).bind fun m => lookupA account m).getD 0
          = satAdd (((lookupA msg_source s.approvals).bind
              fun m => lookupA account m).getD 0) amount
        rw [lookupA_insertA_self, hap]
        show (lookupA account (insertA account (satAdd allowed amount)
            accounts)).getD 0
          = satAdd ((lookupA account accounts).getD 0) amount
        rw [lookupA_insertA_self, hal]
        rfl

/-- C5: Approve with a fresh transaction identifier saturating-adds the
amount to the `(owner, spender)` allowance and replies `Ok` while writing
nothing into the transaction-record map; a second identical Approve with
the same (still unrecorded) identifier therefore executes the addition
again, doubling the allowance increment. -/
theorem C5_approve_not_idempotent (s : FTStorage) (tx : H256)
    (msg_source account : ActorId) (amount : Nat)
    (hfresh : lookupA tx s.transaction_status = none)
    (hamt : amount ≤ U128_MAX) :
    ∃ s₁ s₂, s.approve s.ft_logic_id tx msg_source account amount
        = some (s₁, .Ok) ∧
      s₁.transaction_status = s.transaction_status ∧
      s₁.allowance msg_source account
        = satAdd (s.allowance msg_source account) amount ∧
      s₁.approve s.ft_logic_id tx msg_source account amount
        = some (s₂, .Ok) ∧
      s₂.transaction_status = s.transaction_status ∧
      s₂.allowance msg_source account
        = satAdd (satAdd (s.allowance msg_source account) amount) amount := by
  obtain ⟨s₁, h₁, hid₁, hts₁, _, hal₁⟩ :=
    approve_fresh_step s tx msg_source account amount hfresh hamt
  obtain ⟨s₂, h₂, hid₂, hts₂, _, hal₂⟩ :=
    approve_fresh_step s₁ tx msg_source account amount
      (hts₁ ▸ hfresh) hamt
  rw [hid₁] at h₂
  exact ⟨s₁, s₂, h₁, hts₁, hal₁, h₂, hts₂.trans hts₁, by rw [hal₂, hal₁]⟩

theorem C5_approve_witness :
    ∃ s₁ s₂, FTStorage.approve ⟨0, [], [], []⟩ 0 1 2 3 50 = some (s₁, .Ok) ∧
      s₁.transaction_status = [] ∧
      s₁.allowance 2 3 = satAdd (FTStorage.allowance ⟨0, [], [], []⟩ 2 3) 50 ∧
      s₁.approve 0 1 2 3 50 = some (s₂, .Ok) ∧
      s₂.transaction_status = [] ∧
      s₂.allowance 2 3
        = satAdd (satAdd (FTStorage.allowance ⟨0, [], [], []⟩ 2 3) 50) 50 :=
  C5_approve_not_idempotent ⟨0, [], [], []⟩ 1 2 3 50 (by decide) (by decide)

/-- C2 (amended): a fresh delegated DecreaseBalance succeeds exactly when
the account has a stored balance entry of at least the amount and the
requester has a stored allowance entry from the account of at least the
amount (for positive amounts this coincides with the default-zero reading
of balances and allowances); on success, balance and allowance are
debited together and success is recorded, on failure neither balances nor
approvals change and failure is recorded with reply `Err`. -/
theorem C2_delegated_decrease (s : FTStorage) (tx : H256)
    (msg_source account : ActorId) (amount : Nat)
    (hfresh : lookupA tx s.transaction_status = none)
    (hne : msg_source ≠ account) :
    ∃ s₁ r, s.decrease_balance s.ft_logic_id tx msg_source account amount
        = some (s₁, r) ∧
      ((r = .Ok) ↔
        ((∃ b, lookupA account s.balances = some b ∧ amount ≤ b) ∧
         (∃ al, ((lookupA account s.approvals).bind
            fun m => lookupA msg_source m) = some al ∧ amount ≤ al))) ∧
      (r = .Ok →
        s₁.get_balance account = s.get_balance account - amount ∧
        s₁.allowance account msg_source
          = s.allowance account msg_source - amount ∧
        lookupA tx s₁.transaction_status = some true) ∧
      (r = .Err →
        s₁.balances = s.balances ∧ s₁.approvals = s.approvals ∧
        lookupA tx s₁.transaction_status = some false) ∧
      (r = .Ok ∨ r = .Err) := by
  rcases hb : lookupA account s.balances with _ | balance
  · refine ⟨{ s with
        transaction_status := insertA tx false s.transaction_status },
      .Err, ?_, ?_, ?_, ?_, Or.inr rfl⟩
    · simp [FTStorage.decrease_balance, hfresh, hb, FTStorage.decrease_failed]
    · simp [hb]
    · intro h; simp at h
    · exact fun _ => ⟨rfl, rfl, lookupA_insertA_self tx false s.transaction_status⟩
  · by_cases hle : amount ≤ balance
    · rcases hap : lookupA account s.approvals with _ | accounts
      · refine ⟨{ s with
        transaction_status := insertA tx false s.transaction_status },
      .Err, ?_, ?_, ?_, ?_, Or.inr rfl⟩
        · simp [FTStorage.decrease_balance, hfresh, hb, hle, hne, hap,
            FTStorage.decrease_failed]
        · simp [hap]
        · intro h; simp at h
        · exact fun _ =>
            ⟨rfl, rfl, lookupA_insertA_self tx false s.transaction_status⟩
      · rcases hal : lookupA msg_source accounts with _ | allowed
        · refine ⟨{ s with
        transaction_status := insertA tx false s.transaction_status },
      .Err, ?_, ?_, ?_, ?_, Or.inr rfl⟩
          · simp [FTStorage.decrease_balance, hfresh, hb, hle, hne, hap, hal,
              FTStorage.decrease_failed]
          · simp [hap, hal]
          · intro h; simp at h
          · exact fun _ =>
              ⟨rfl, rfl, lookupA_insertA_self tx false s.transaction_status⟩
        · by_cases hale : amount ≤ allowed
          · refine ⟨{ s with
                balances := insertA account (balance - amount) s.balances
                approvals := insertA account
                  (insertA msg_source (allowed - amount) accounts) s.approvals
                transaction_status := insertA tx true s.transaction_status },
              .Ok, ?_, ?_, ?_, ?_, Or.inl rfl⟩
            · simp [FTStorage.decrease_balance, hfresh, hb, hle, hne, hap,
                hal, hale]
            · simp [hb, hle, hap, hal, hale]
            · intro _
              refine ⟨?_, ?_, lookupA_insertA_self tx true s.transaction_status⟩
              · show (lookupA account (insertA account (balance - amount)
                    s.balances)).getD 0
                  = (lookupA account s.balances).getD 0 - amount
                rw [lookupA_insertA_self, hb]
                rfl
              · show ((lookupA account (insertA account
                    (insertA msg_source (allowed - amount) accounts)
                      s.approvals)).bind fun m => lookupA msg_source m).getD 0
                  = ((lookupA account s.approvals).bind
                      fun m => lookupA msg_source m).getD 0 - amount
                rw [lookupA_insertA_self, hap]
                show (lookupA msg_source (insertA msg_source (allowed - amount)
                    accounts)).getD 0
                  = (lookupA msg_source accounts).getD 0 - amount
                rw [lookupA_insertA_self, hal]
                rfl
            · intro h; simp at h
          · refine ⟨{ s with
        transaction_status := insertA tx false s.transaction_status },
      .Err, ?_, ?_, ?_, ?_, Or.inr rfl⟩
            · simp [FTStorage.decrease_balance, hfresh, hb, hle, hne, hap,
                hal, hale, FTStorage.decrease_failed]
            · simp [hb, hle, hap, hal, hale]
            · intro h; simp at h
            · exact fun _ =>
                ⟨rfl, rfl, lookupA_insertA_self tx false s.transaction_status⟩
    · refine ⟨{ s with
        transaction_status := insertA tx false s.transaction_status },
      .Err, ?_, ?_, ?_, ?_, Or.inr rfl⟩
      · simp [FTStorage.decrease_balance, hfresh, hb, hle,
          FTStorage.decrease_failed]
      · simp [hb, hle]
      · intro h; simp at h
      · exact fun _ =>
          ⟨rfl, rfl, lookupA_insertA_self tx false s.transaction_status⟩

/-- C2 as stated is false at amount zero: with a fresh identifier,
requester 2 ≠ account 3, the account's (default-zero) balance and the
(default-zero) allowance both satisfy `≥ 0`, yet the code records failure
and replies `Err`, because the account has no stored balance entry. -/
theorem C2_counterexample :
    FTStorage.get_balance ⟨0, [], [], []⟩ 3 ≥ 0 ∧
    FTStorage.allowance ⟨0, [], [], []⟩ 3 2 ≥ 0 ∧
    FTStorage.decrease_balance ⟨0, [], [], []⟩ 0 1 2 3 0
      = some (⟨0, [(1, false)], [], []⟩, .Err) ∧
    ¬ ∃ s₁, FTStorage.decrease_balance ⟨0, [], [], []⟩ 0 1 2 3 0
        = some (s₁, .Ok) := by
  refine ⟨by decide, by decide, by decide, ?_⟩
  rintro ⟨s₁, h⟩
  rw [show FTStorage.decrease_balance ⟨0, [], [], []⟩ 0 1 2 3 0
      = some (⟨0, [(1, false)], [], []⟩, .Err) by decide] at h
  simp at h

theorem C2_delegated_witness :
    ∃ s₁ r,
      FTStorage.decrease_balance ⟨0, [], [(3, 10)], [(3, [(2, 5)])]⟩ 0 1 2 3 4
        = some (s₁, r) ∧
      ((r = .Ok) ↔
        ((∃ b, lookupA 3 [(3, 10)] = some b ∧ 4 ≤ b) ∧
         (∃ al, ((lookupA 3 [(3, [(2, 5)])]).bind
            fun m => lookupA 2 m) = some al ∧ 4 ≤ al))) ∧
      (r = .Ok →
        s₁.get_balance 3
          = FTStorage.get_balance ⟨0, [], [(3, 10)], [(3, [(2, 5)])]⟩ 3 - 4 ∧
        s₁.allowance 3 2
          = FTStorage.allowance ⟨0, [], [(3, 10)], [(3, [(2, 5)])]⟩ 3 2 - 4 ∧
        lookupA 1 s₁.transaction_status = some true) ∧
      (r = .Err →
        s₁.balances = [(3, 10)] ∧ s₁.approvals = [(3, [(2, 5)])] ∧
        lookupA 1 s₁.transaction_status = some false) ∧
      (r = .Ok ∨ r = .Err) :=
  C2_delegated_decrease ⟨0, [], [(3, 10)], [(3, [(2, 5)])]⟩ 1 2 3 4
    (by decide) (by decide)

/-- C9 (amended): for positive amounts an account with no balance entry
behaves like one stored with balance zero: a fresh DecreaseBalance
replies `Err` in both cases and only records the failure, leaving
balances and approvals as they were.  (For amount zero the two differ,
see `C9_counterexample`.) -/
theorem C9_absent_vs_zero (s : FTStorage) (tx : H256)
    (msg_source account : ActorId) (amount : Nat)
    (hfresh : lookupA tx s.transaction_status = none)
    (habs : lookupA account s.balances = none)
    (hpos : 0 < amount) :
    s.decrease_balance s.ft_logic_id tx msg_source account amount
      = some ({ s with
          transaction_status := insertA tx false s.transaction_status }, .Err) ∧
    FTStorage.decrease_balance
        { s with balances := insertA account 0 s.balances }
        s.ft_logic_id tx msg_source account amount
      = some ({ s with
          balances := insertA account 0 s.balances
          transaction_status := insertA tx false s.transaction_status }, .Err) := by
  constructor
  · simp [FTStorage.decrease_balance, hfresh, habs, FTStorage.decrease_failed]
  · have hb : lookupA account (insertA account 0 s.balances) = some 0 :=
      lookupA_insertA_self account 0 s.balances
    have hle : ¬ amount ≤ 0 := by omega
    simp [FTStorage.decrease_balance, hfresh, hb, hle, FTStorage.decrease_failed]

theorem C9_absent_vs_zero_witness :
    FTStorage.decrease_balance ⟨0, [], [], []⟩ 0 1 3 3 5
      = some (⟨0, [(1, false)], [], []⟩, .Err) ∧
    FTStorage.decrease_balance ⟨0, [], [(3, 0)], []⟩ 0 1 3 3 5
      = some (⟨0, [(1, false)], [(3, 0)], []⟩, .Err) :=
  C9_absent_vs_zero ⟨0, [], [], []⟩ 1 3 3 5 (by decide) (by decide) (by decide)

/-- C9 as stated is false at amount zero: a self-decrease of amount 0 on
an absent account records failure and replies `Err`, while the same
request on an account stored with balance 0 records success and replies
`Ok` — there is no common reply, so the two scenarios do not have the
same outcome. -/
theorem C9_counterexample :
    FTStorage.decrease_balance ⟨0, [], [], []⟩ 0 1 3 3 0
      = some (⟨0, [(1, false)], [], []⟩, .Err) ∧
    FTStorage.decrease_balance ⟨0, [], [(3, 0)], []⟩ 0 1 3 3 0
      = some (⟨0, [(1, true)], [(3, 0)], []⟩, .Ok) ∧
    ¬ ∃ r, (∃ s₁, FTStorage.decrease_balance ⟨0, [], [], []⟩ 0 1 3 3 0
              = some (s₁, r)) ∧
           (∃ s₂, FTStorage.decrease_balance ⟨0, [], [(3, 0)], []⟩ 0 1 3 3 0
              = some (s₂, r)) := by
  refine ⟨by decide, by decide, ?_⟩
  rintro ⟨r, ⟨s₁, h₁⟩, ⟨s₂, h₂⟩⟩
  rw [show FTStorage.decrease_balance ⟨0, [], [], []⟩ 0 1 3 3 0
      = some (⟨0, [(1, false)], [], []⟩, .Err) by decide] at h₁
  rw [show FTStorage.decrease_balance ⟨0, [], [(3, 0)], []⟩ 0 1 3 3 0
      = some (⟨0, [(1, true)], [(3, 0)], []⟩, .Ok) by decide] at h₂
  obtain ⟨rfl, rfl⟩ : (⟨0, [(1, false)], [], []⟩ : FTStorage) = s₁ ∧
      FTStorageEvent.Err = r := by simpa using h₁
  simp at h₂
